import Mathlib

/-!
Verification of the Imperative command-processing core.

The development shallowly embeds `packages/cmd/src/CommandProcessor.ts`
(`invoke`, `attemptHandlerLoad`, `handleHandlerError`, `finishResponse`)
and the credential layer `AbstractCredentialManager` (`save`, `load`),
and proves the behavioural claims about them.

Collaborator classes that are only declared or used here
(`CommandResponse`, `ImperativeExpect`, the messages module) are not part
of the embedded source; they are modelled from the specification, and each
such definition is marked `Modelled from the spec`.
-/

deriving instance DecidableEq for Except

namespace Imperative

/-- Record carried by an `ImperativeError` (`IImperativeError`): a message,
optional additional details, optional stack, optional cause information.
Modelled from the spec: the ErrorRecord of section 3 and the JSON wire
format of section 6 (`msg`, `additionalDetails`, `stack`, `causeErrors`). -/
structure IImperativeError where
  msg : String
  additionalDetails : Option String := none
  stack : Option String := none
  causeErrors : Option String := none
deriving Repr, DecidableEq

/-- Universe of JavaScript values a handler (or a pipeline stage) can throw.
The cases mirror the discriminations made in `CommandProcessor`:
`instanceof ImperativeError`, `instanceof Error`, `typeof === "string"`,
`== null`, and everything else (represented here by numbers and booleans,
such as the thrown value `42` of the spec scenario). -/
inductive JSVal where
  | jsNull
  | jsUndefined
  | num (n : Int)
  | bool (b : Bool)
  | str (s : String)
  | errObj (message : String) (stack : Option String)
  | impErr (details : IImperativeError)
deriving Repr, DecidableEq

/-- The JavaScript expression `v.message`: defined for `Error` instances and
for `ImperativeError` instances (whose `message` getter returns
`details.msg`, per the wire format of spec section 6); `undefined`
(`none`) for any other value. -/
def jsMessage : JSVal → Option String
  | .impErr d => some d.msg
  | .errObj m _ => some m
  | _ => none

/-- The JavaScript expression `v.details`: the details record of an
`ImperativeError`, `undefined` for anything else. -/
def jsDetails : JSVal → Option IImperativeError
  | .impErr d => some d
  | _ => none

/-- Rendering of a possibly-`undefined` string in a string concatenation or
console write, as JavaScript does it. -/
def jsStr (o : Option String) : String := o.getD "undefined"

/-- The frozen JSON snapshot of a response (`ICommandResponse`).
Modelled from the spec: `finalize()` of section 4.B and the JSON response
document of section 6; `exitCode` is 0 on success and 1 on failure
(section 6). Stream output is kept as the list of appended chunks. -/
structure ICommandResponse where
  success : Bool
  exitCode : Nat
  message : String
  data : Option JSVal
  stdout : List String
  stderr : List String
  error : Option IImperativeError
deriving Repr, DecidableEq

/-- Mutable state of a `CommandResponse`.  Modelled from the spec: the
Response accumulator of section 4.B (console buffers, structured data,
message, success flag, error record, silent flag, response format). -/
structure CommandResponse where
  success : Bool
  message : String
  dataObj : Option JSVal
  stdout : List String
  stderr : List String
  error : Option IImperativeError
  silent : Bool
  responseFormat : String
deriving Repr, DecidableEq

namespace CommandResponse

/-- Modelled from the spec: `succeeded()` marks the response successful. -/
def succeeded (r : CommandResponse) : CommandResponse := { r with success := true }

/-- Modelled from the spec: `failed()` marks the response failed. -/
def failed (r : CommandResponse) : CommandResponse := { r with success := false }

/-- Modelled from the spec: `setError` attaches the error record and implies
`failed` (section 4.B). -/
def setError (r : CommandResponse) (e : IImperativeError) : CommandResponse :=
  { r with error := some e, success := false }

/-- Modelled from the spec: `data.setMessage`. -/
def setMessage (r : CommandResponse) (m : String) : CommandResponse := { r with message := m }

/-- Modelled from the spec: `data.setObj`. -/
def setObj (r : CommandResponse) (v : JSVal) : CommandResponse := { r with dataObj := some v }

/-- Modelled from the spec: `console.log` appends a chunk to stdout. -/
def logStdout (r : CommandResponse) (s : String) : CommandResponse :=
  { r with stdout := r.stdout ++ [s] }

/-- Modelled from the spec: `console.error` appends a chunk to stderr. -/
def errStderr (r : CommandResponse) (s : String) : CommandResponse :=
  { r with stderr := r.stderr ++ [s] }

/-- Modelled from the spec: `console.errorHeader` renders a header line on
stderr. -/
def errorHeader (r : CommandResponse) (s : String) : CommandResponse :=
  { r with stderr := r.stderr ++ [s] }

/-- Modelled from the spec: `bufferStdout` appends previously accumulated
output to the stdout buffer (used to seed a chained step's response). -/
def bufferStdout (r : CommandResponse) (b : List String) : CommandResponse :=
  { r with stdout := r.stdout ++ b }

/-- Modelled from the spec: `bufferStderr` appends previously accumulated
output to the stderr buffer. -/
def bufferStderr (r : CommandResponse) (b : List String) : CommandResponse :=
  { r with stderr := r.stderr ++ b }

/-- Modelled from the spec: `buildJsonResponse` freezes the accumulator into
the JSON snapshot; exit code is 0 on success and 1 on failure (section 6). -/
def buildJsonResponse (r : CommandResponse) : ICommandResponse :=
  { success := r.success
    exitCode := if r.success then 0 else 1
    message := r.message
    data := r.dataObj
    stdout := r.stdout
    stderr := r.stderr
    error := r.error }

end CommandResponse

/-- Modelled from the spec: a freshly constructed response (empty buffers, no
error, no data); a Response is assumed successful until marked otherwise. -/
def freshResponse (fmt : String) (silent : Bool) : CommandResponse :=
  { success := true, message := "", dataObj := none, stdout := [], stderr := [],
    error := none, silent := silent, responseFormat := fmt }

/-- The `ERROR_TAG` constant of `CommandProcessor`. -/
def errorTag : String := "Command Processor Error:"

/-- A step of `chainedHandlers`: the handler path and the silent flag.  The
`argMapping` of a step only shapes the Arguments object handed to the
step's handler; handler behaviour is abstracted below, so the mapping is
not represented. -/
structure ChainedStep where
  handler : String
  silent : Bool
deriving Repr, DecidableEq

/-- The parts of `ICommandDefinition` that `invoke` consults: the command
name, the optional single handler path and the optional chained steps. -/
structure ICommandDefinition where
  name : String
  handler : Option String
  chainedHandlers : Option (List ChainedStep)
deriving Repr, DecidableEq

/-- The parts of the yargs Arguments object that `invoke` consults: the `_`
positional array (always an array here, so `toBeAnArray` passes) and the
JSON-option flag consulted when constructing a chained step's response. -/
structure CmdArguments where
  positional : List String
  jsonFlag : Bool
deriving Repr, DecidableEq

/-- `IInvokeCommandParms`: arguments, optional silent flag, optional
response format.  `arguments` is optional so that the null-arguments
pre-check can be exercised. -/
structure IInvokeCommandParms where
  arguments : Option CmdArguments
  silent : Option Bool := none
  responseFormat : Option String := none
deriving Repr, DecidableEq

/-- A value propagating out of `invoke` as a rejection: an
`ImperativeExpect` violation, a JavaScript `TypeError` raised by a
property access on `undefined`, or a thrown `ImperativeError`.
`ImperativeExpect` is not under `src/`; it is modelled from the spec:
its violations are thrown values (section 7 propagation policy, and the
repository test snapshot records an Expect violation as a thrown
"Expect Error"). -/
inductive Thrown where
  | expectError (msg : String)
  | typeError (msg : String)
  | imperativeError (msg : String)
deriving Repr, DecidableEq

/-- Observable pipeline events, used to state that a stage did or did not
run: `prepare` was entered; a handler's `process` was invoked (with its
path and, for chained handlers, the step index). -/
inductive Event where
  | prepareCalled
  | handlerRun (path : String) (idx : Nat)
deriving Repr, DecidableEq

/-- A loaded command handler, abstracted as a transformer of the response it
is handed: it returns the mutated response together with the value it
threw, if it threw (`none` means normal completion). -/
def Handler := CommandResponse → CommandResponse × Option JSVal

/-- The environment `invoke` runs against: the outcome of the syntax
validator (which can itself throw), the outcome of the Prepare stage
(stdin read and profile loading, which can throw), and the module loader
for handler paths (failing with the load error's message). -/
structure Env where
  validator : Except JSVal Bool
  prepareResult : Except JSVal Unit
  loadHandler : String → Except String Handler

/-- Modelled from the spec: the `couldNotInstatiateCommandHandler` message of
the messages module with the handler path and command name substituted;
per section 4.G the text names the handler path. -/
def couldNotInstatiateCommandHandlerMsg (commandHandler definitionName : String) : String :=
  "Could not instantiate the handler " ++ commandHandler ++ " for command " ++ definitionName

/-- Modelled from the spec: the `unexpectedCommandError` message header
("Unexpected Command Error", section 4.G error-mapping table). -/
def unexpectedCommandErrorMsg : String := "Unexpected Command Error"

/-- JavaScript `path.normalize`, modelled as the identity: it only rewrites
separators and dot segments, which no claim depends on. -/
def nodePathNormalize (p : String) : String := p

/-- `CommandProcessor.attemptHandlerLoad` (lines 470-496): require and
instantiate the handler module; on any load or instantiation failure,
mark the response failed, emit the instantiation-failure messages, attach
the error record (whose `additionalDetails` is the load error's message),
and yield no handler. -/
def attemptHandlerLoad (env : Env) (definitionName : String) (response : CommandResponse)
    (handlerPath : String) : CommandResponse × Option Handler :=
  match env.loadHandler handlerPath with
  | .ok handler => (response, some handler)
  | .error handlerErrMessage =>
    let errorMessage := couldNotInstatiateCommandHandlerMsg (nodePathNormalize handlerPath) definitionName
    let r := response.failed
    let r := r.errorHeader "Handler Instantiation Failed"
    let r := r.errStderr errorMessage
    let r := r.setMessage errorMessage
    let r := r.errorHeader "Error Details"
    let r := r.errStderr handlerErrMessage
    (r.setError { msg := errorMessage, additionalDetails := some handlerErrMessage }, none)

/-- `CommandProcessor.handleHandlerError` (lines 534-598): discriminate the
thrown value by shape, in source order (`instanceof ImperativeError`,
`instanceof Error`, `typeof string`, `== null`, anything else), and
record the failure on the response.  In the final branch the source sets
the response's data object to the thrown value and does not attach an
error record.  (`endProgressBar` manages the progress bar, which is not
modelled.) -/
def handleHandlerError (handlerErr : JSVal) (response : CommandResponse)
    (handlerPath : String) : CommandResponse :=
  let response := response.failed
  match handlerErr with
  | .impErr details =>
    let r := response.setError details
    let r := r.errorHeader "Command Error"
    let r := r.errStderr (details.msg ++ "\n")
    let r :=
      match details.additionalDetails with
      | some det => (r.errorHeader "Error Details").errStderr det
      | none => r
    r.setMessage details.msg
  | .errObj message stack =>
    let r := response.setError { msg := message, stack := stack }
    let r := r.setMessage (unexpectedCommandErrorMsg ++ ": " ++ message)
    let r := r.errorHeader unexpectedCommandErrorMsg
    let r := r.errStderr ("Please review the message and stack below.\n" ++
      "Contact the creator of handler:\n\"" ++ handlerPath ++ "\"")
    let r := r.errorHeader "Message"
    let r := if message ≠ "" then r.errStderr message
             else r.errStderr "No message present in the error."
    let r := r.errorHeader "Stack"
    match stack with
    | some stk => r.errStderr stk
    | none => r.errStderr "No error stack present in the error."
  | .str s =>
    let r := response.errorHeader "Command Error"
    let r := r.errStderr s
    let r := r.setMessage s
    r.setError { msg := s }
  | .jsNull =>
    (response.setMessage "Command failed").setError { msg := "Command Failed" }
  | .jsUndefined =>
    (response.setMessage "Command failed").setError { msg := "Command Failed" }
  | other =>
    let r := response.errorHeader unexpectedCommandErrorMsg
    let r := r.errStderr "The command indicated failure through an unexpected means."
    let r := r.errStderr "Contact the creator of handler:"
    let r := r.errStderr ("\"" ++ handlerPath ++ "\"")
    r.setObj other

/-- `CommandProcessor.finishResponse` (lines 506-526): freeze the snapshot;
when not silent and the response format is neither `json` nor `default`,
throw an `ImperativeError` instead. -/
def finishResponse (response : CommandResponse) : Except Thrown (Option ICommandResponse) :=
  if !response.silent ∧ response.responseFormat ≠ "json" ∧ response.responseFormat ≠ "default" then
    .error (.imperativeError (errorTag ++ " The response format specified (\"" ++
      response.responseFormat ++ "\") is not valid."))
  else
    .ok (some response.buildJsonResponse)

/-- `CommandProcessor.constructResponseObject` (lines 454-462): a fresh
response with the given format and with silent defaulted to `false`. -/
def constructResponseObject (silent : Option Bool) (responseFormat : String) : CommandResponse :=
  freshResponse responseFormat (silent.getD false)

/-- The response constructed for a chained step (invoke lines 365-373): a
fresh response honouring the step's silent flag and the JSON option, then
seeded with the accumulated stdout and stderr of the previous steps. -/
def mkStepResponse (args : CmdArguments) (step : ChainedStep)
    (bufOut bufErr : List String) : CommandResponse :=
  ((constructResponseObject (some step.silent)
      (if args.jsonFlag then "json" else "default")).bufferStdout bufOut).bufferStderr bufErr

/-- The chained-handler loop of `invoke` (lines 343-409), with the step list
still to run, the next step index, the accumulated stdout/stderr buffers,
and the last constructed step response (`chainedResponse`, which starts
out undefined).  On a throw the loop stops and finishes the failed step's
response; on load failure it finishes the main response; after an empty
loop it finishes the still-undefined `chainedResponse`, which raises a
`TypeError`. -/
def chainLoop (definitionName : String) (env : Env) (args : CmdArguments)
    (response : CommandResponse) :
    List ChainedStep → Nat → List String → List String → Option CommandResponse →
      Except Thrown (Option ICommandResponse) × List Event
  | [], _, _, _, last =>
    match last with
    | none => (.error (.typeError "Cannot read buildJsonResponse of undefined"), [])
    | some chainedResponse => (finishResponse chainedResponse, [])
  | chainedHandler :: rest, idx, bufOut, bufErr, _ =>
    match attemptHandlerLoad env definitionName response chainedHandler.handler with
    | (r, none) => (finishResponse r, [])
    | (_, some handler) =>
      let chainedResponse := mkStepResponse args chainedHandler bufOut bufErr
      let (r, thrown) := handler chainedResponse
      match thrown with
      | some processErr =>
        (finishResponse (handleHandlerError processErr r chainedHandler.handler),
          [.handlerRun chainedHandler.handler idx])
      | none =>
        let built := r.buildJsonResponse
        let (res, evs) :=
          chainLoop definitionName env args response rest (idx + 1) built.stdout built.stderr (some r)
        (res, .handlerRun chainedHandler.handler idx :: evs)

/-- The body of `invoke` after the pre-checks (lines 232-413): construct the
response, validate, on valid syntax prepare, then run the single handler
or the chained-handler loop.  The final fall-through (a command node with
neither handler nor chained handlers, unreachable past the pre-checks)
resolves with `undefined`, embedded as `.ok none`. -/
def invokeMain (defn : ICommandDefinition) (rootCommand : String) (env : Env)
    (args : CmdArguments) (silent : Option Bool) (responseFormat : String) :
    Except Thrown (Option ICommandResponse) × List Event :=
  let response := (constructResponseObject silent responseFormat).succeeded
  match env.validator with
  | .error e =>
    let errMsg := "Unexpected syntax validation error"
    let r := response.setMessage (errMsg ++ ": " ++ jsStr (jsMessage e))
    let r := r.errorHeader errMsg
    let r := r.errStderr (jsStr (jsMessage e))
    let r := r.setError { msg := errMsg, additionalDetails := jsMessage e }
    (finishResponse r.failed, [])
  | .ok valid =>
    if valid = false then
      let r := (response.setMessage "Command syntax invalid").failed
      let finalHelp :=
        if args.positional.length > 0 then
          "\nUse \"" ++ rootCommand ++ " " ++ " ".intercalate args.positional ++
            " --help\" to view command description, usage, and options."
        else
          "\nUse \"" ++ defn.name ++ " --help\" to view command description, usage, and options."
      (finishResponse (r.errStderr finalHelp), [])
    else
      match env.prepareResult with
      | .error prepareErr =>
        let r := response.failed
        let err :=
          match jsMessage prepareErr with
          | some m => if m = "" then "Internal Error: No cause message present." else m
          | none => "Internal Error: No cause message present."
        let r := r.setMessage err
        let r := r.errorHeader "Command Preparation Failed"
        let r := r.errStderr err
        match jsDetails prepareErr with
        | none =>
          (.error (.typeError "Cannot read additionalDetails of undefined"), [.prepareCalled])
        | some details =>
          match details.additionalDetails with
          | some det =>
            let r := (r.errorHeader "Error Details").errStderr det
            (finishResponse (r.setError { msg := err, additionalDetails := some det }),
              [.prepareCalled])
          | none => (finishResponse (r.setError { msg := err }), [.prepareCalled])
      | .ok _ =>
        match defn.handler with
        | some handlerPath =>
          match attemptHandlerLoad env defn.name response handlerPath with
          | (r, none) => (finishResponse r, [.prepareCalled])
          | (_, some handler) =>
            let (r, thrown) := handler response
            match thrown with
            | some processErr =>
              (finishResponse (handleHandlerError processErr r handlerPath),
                [.prepareCalled, .handlerRun handlerPath 0])
            | none =>
              (finishResponse r.succeeded, [.prepareCalled, .handlerRun handlerPath 0])
        | none =>
          match defn.chainedHandlers with
          | some chainedHandlers =>
            let (res, evs) := chainLoop defn.name env args response chainedHandlers 0 [] [] none
            (res, .prepareCalled :: evs)
          | none => (.ok none, [.prepareCalled])

/-- JavaScript `String.prototype.trim` whitespace test (the common cases). -/
def jsWhitespace (c : Char) : Bool :=
  c == ' ' || c == '\t' || c == '\n' || c == '\r'

/-- JavaScript `String.prototype.trim`, modelled on the character list:
leading and trailing whitespace removed. -/
def jsTrim (s : String) : String :=
  String.mk (((s.data.dropWhile jsWhitespace).reverse.dropWhile jsWhitespace).reverse)

/-- `CommandProcessor.invoke` (lines 206-413): the `ImperativeExpect`
pre-checks in source order (null params, null arguments, response format
not in the allowed set, and, for a node without chained handlers, a
missing or blank handler path), then the pipeline body. -/
def invoke (defn : ICommandDefinition) (rootCommand : String) (env : Env)
    (params : Option IInvokeCommandParms) :
    Except Thrown (Option ICommandResponse) × List Event :=
  match params with
  | none => (.error (.expectError (errorTag ++ " invoke(): No parameters supplied.")), [])
  | some p =>
    match p.arguments with
    | none =>
      (.error (.expectError (errorTag ++ " invoke(): No command arguments supplied.")), [])
    | some args =>
      let responseFormat := p.responseFormat.getD "default"
      if ¬ (responseFormat = "default" ∨ responseFormat = "json") then
        (.error (.expectError (errorTag ++
          " invoke(): Response format must be one of the following: default,json")), [])
      else
        match defn.chainedHandlers with
        | none =>
          match defn.handler with
          | none =>
            (.error (.expectError (errorTag ++ " invoke(): Cannot invoke the command \"" ++
              defn.name ++ "\". It has no handler and no chained handlers.")), [])
          | some h =>
            if jsTrim h = "" then
              (.error (.expectError (errorTag ++
                " invoke(): Cannot invoke the handler for command \"" ++ defn.name ++
                "\". The handler is blank.")), [])
            else invokeMain defn rootCommand env args p.silent responseFormat
        | some _ => invokeMain defn rootCommand env args p.silent responseFormat

/-! ## Credential manager

`AbstractCredentialManager.save` base64-encodes the secret before handing
it to the backing store, and `load` base64-decodes what the backing store
returns.  `Buffer.from(s).toString("base64")` operates on the UTF-8 bytes
of the string, so both UTF-8 and base64 are embedded at the byte level
(bytes as `Nat` below 256, code points as `Nat`). -/

/-- Character of the standard base64 alphabet for a sextet below 64. -/
def sextetChar (i : Nat) : Char :=
  if i < 26 then Char.ofNat (65 + i)
  else if i < 52 then Char.ofNat (97 + (i - 26))
  else if i < 62 then Char.ofNat (48 + (i - 52))
  else if i = 62 then '+'
  else '/'

/-- Sextet value of a base64 alphabet character. -/
def sextetOfChar (c : Char) : Option Nat :=
  let n := c.toNat
  if 65 ≤ n ∧ n ≤ 90 then some (n - 65)
  else if 97 ≤ n ∧ n ≤ 122 then some (n - 97 + 26)
  else if 48 ≤ n ∧ n ≤ 57 then some (n - 48 + 52)
  else if n = 43 then some 62
  else if n = 47 then some 63
  else none

/-- Base64 encoding of a byte list, three bytes to four characters, with
trailing `=` padding as `Buffer.toString("base64")` produces it. -/
def b64encodeChars : List Nat → List Char
  | [] => []
  | [a] => [sextetChar (a / 4), sextetChar (a % 4 * 16), '=', '=']
  | [a, b] => [sextetChar (a / 4), sextetChar (a % 4 * 16 + b / 16), sextetChar (b % 16 * 4), '=']
  | a :: b :: c :: rest =>
    sextetChar (a / 4) :: sextetChar (a % 4 * 16 + b / 16) ::
      sextetChar (b % 16 * 4 + c / 64) :: sextetChar (c % 64) :: b64encodeChars rest

/-- The three bytes encoded by a full quartet of sextets. -/
def b64decodeQuad (s0 s1 s2 s3 : Nat) (tail : List Nat) : List Nat :=
  (s0 * 4 + s1 / 16) :: (s1 % 16 * 16 + s2 / 4) :: (s2 % 4 * 64 + s3) :: tail

/-- Base64 decoding of a character list (`Buffer.from(s, "base64")` on the
well-formed outputs of the encoder; other inputs may yield `none`). -/
def b64decodeChars : List Char → Option (List Nat)
  | [] => some []
  | [c0, c1, p2, p3] =>
    match sextetOfChar c0, sextetOfChar c1 with
    | some s0, some s1 =>
      if p2 = '=' then
        if p3 = '=' then some [s0 * 4 + s1 / 16] else none
      else
        match sextetOfChar p2 with
        | some s2 =>
          if p3 = '=' then some [s0 * 4 + s1 / 16, s1 % 16 * 16 + s2 / 4]
          else
            match sextetOfChar p3 with
            | some s3 => some (b64decodeQuad s0 s1 s2 s3 [])
            | none => none
        | none => none
    | _, _ => none
  | c0 :: c1 :: c2 :: c3 :: rest =>
    match sextetOfChar c0, sextetOfChar c1, sextetOfChar c2, sextetOfChar c3 with
    | some s0, some s1, some s2, some s3 =>
      (b64decodeChars rest).map (b64decodeQuad s0 s1 s2 s3)
    | _, _, _, _ => none
  | _ => none

/-- UTF-8 encoding of one code point (below 0x110000) as a byte list. -/
def utf8EncodeChar (n : Nat) : List Nat :=
  if n < 128 then [n]
  else if n < 2048 then [192 + n / 64, 128 + n % 64]
  else if n < 65536 then [224 + n / 4096, 128 + n / 64 % 64, 128 + n % 64]
  else [240 + n / 262144, 128 + n / 4096 % 64, 128 + n / 64 % 64, 128 + n % 64]

/-- UTF-8 encoding of a code-point list. -/
def utf8EncodeNats : List Nat → List Nat
  | [] => []
  | n :: r => utf8EncodeChar n ++ utf8EncodeNats r

/-- UTF-8 decoding of a byte list back to code points (`Buffer.toString()`
on well-formed encoder output; other inputs may yield `none`).  The
continuation bytes are fetched with `getD` so that each list pattern has a
single equation. -/
def utf8DecodeNats : List Nat → Option (List Nat)
  | [] => some []
  | b :: rest =>
    if b < 128 then (utf8DecodeNats rest).map (b :: ·)
    else if b < 192 then none
    else if b < 224 then
      if 1 ≤ rest.length ∧ 128 ≤ rest.getD 0 0 ∧ rest.getD 0 0 < 192 then
        (utf8DecodeNats (rest.drop 1)).map
          (((b - 192) * 64 + (rest.getD 0 0 - 128)) :: ·)
      else none
    else if b < 240 then
      if 2 ≤ rest.length ∧ (128 ≤ rest.getD 0 0 ∧ rest.getD 0 0 < 192) ∧
          128 ≤ rest.getD 1 0 ∧ rest.getD 1 0 < 192 then
        (utf8DecodeNats (rest.drop 2)).map
          (((b - 224) * 4096 + (rest.getD 0 0 - 128) * 64 + (rest.getD 1 0 - 128)) :: ·)
      else none
    else
      if 3 ≤ rest.length ∧ (128 ≤ rest.getD 0 0 ∧ rest.getD 0 0 < 192) ∧
          (128 ≤ rest.getD 1 0 ∧ rest.getD 1 0 < 192) ∧
          128 ≤ rest.getD 2 0 ∧ rest.getD 2 0 < 192 then
        (utf8DecodeNats (rest.drop 3)).map
          (((b - 240) * 262144 + (rest.getD 0 0 - 128) * 4096 +
            (rest.getD 1 0 - 128) * 64 + (rest.getD 2 0 - 128)) :: ·)
      else none
termination_by l => l.length
decreasing_by
  · simp
  · simp [List.length_drop]
    omega
  · simp [List.length_drop]
    omega
  · simp [List.length_drop]
    omega

/-- `Buffer.from(s).toString("base64")`: base64 of the UTF-8 bytes of `s`. -/
def base64Encode (s : String) : String :=
  String.mk (b64encodeChars (utf8EncodeNats (s.data.map Char.toNat)))

/-- `Buffer.from(s, "base64").toString()`: UTF-8 text of the base64-decoded
bytes of `s` (on the well-formed case). -/
def base64Decode (s : String) : Option String :=
  (b64decodeChars s.data).bind fun bytes =>
    (utf8DecodeNats bytes).map fun cps => String.mk (cps.map Char.ofNat)

/-- A concrete credential store: the subclass hooks `saveCredentials` and
`loadCredentials` that `AbstractCredentialManager` drives, over a store
state of type `σ`.  `loadCredentials` returns `none` when the subclass
would throw. -/
structure CredBackend (σ : Type) where
  saveCredentials : σ → String → String → σ
  loadCredentials : σ → String → Option String

namespace AbstractCredentialManager

/-- `AbstractCredentialManager.save` (part_002, lines 110-120): when the
secure value is neither null/undefined nor the empty string, store its
base64 encoding; otherwise throw `ImperativeError` "Missing Secure Field"
(returned here alongside the untouched store state). -/
def save {σ : Type} (b : CredBackend σ) (st : σ) (account : String)
    (secureValue : Option String) : Option IImperativeError × σ :=
  match secureValue with
  | some v =>
    if v ≠ "" then (none, b.saveCredentials st account (base64Encode v))
    else (some { msg := "Missing Secure Field" }, st)
  | none => (some { msg := "Missing Secure Field" }, st)

/-- `AbstractCredentialManager.load` (part_002, lines 94-98): fetch the
stored encoded string and base64-decode it. -/
def load {σ : Type} (b : CredBackend σ) (st : σ) (account : String) : Option String :=
  (b.loadCredentials st account).bind base64Decode

end AbstractCredentialManager

/-! ## Composition of successful chained steps -/

/-- A chained step whose handler loads and never throws, whatever response
state it is handed. -/
def StepSucceeds (env : Env) (s : ChainedStep) : Prop :=
  ∃ h, env.loadHandler s.handler = .ok h ∧ ∀ r, (h r).2 = none

/-- The cumulative stdout/stderr accumulator after a list of loadable,
non-throwing chained steps has run, starting from the given buffers: each
step's response is seeded with the running buffers and its built output
becomes the new accumulator (invoke lines 390-394). -/
def chainBuffers (env : Env) (args : CmdArguments) (bufOut bufErr : List String) :
    List ChainedStep → List String × List String
  | [] => (bufOut, bufErr)
  | step :: rest =>
    match env.loadHandler step.handler with
    | .error _ => (bufOut, bufErr)
    | .ok h =>
      let r := (h (mkStepResponse args step bufOut bufErr)).1
      chainBuffers env args r.stdout r.stderr rest

/-- The `chainedResponse` variable after a list of loadable, non-throwing
chained steps has run. -/
def chainLast (env : Env) (args : CmdArguments) (last : Option CommandResponse)
    (bufOut bufErr : List String) : List ChainedStep → Option CommandResponse
  | [] => last
  | step :: rest =>
    match env.loadHandler step.handler with
    | .error _ => last
    | .ok h =>
      let r := (h (mkStepResponse args step bufOut bufErr)).1
      chainLast env args (some r) r.stdout r.stderr rest

/-- The handler-run events of a list of chained steps starting at an index. -/
def chainEvents (idx : Nat) : List ChainedStep → List Event
  | [] => []
  | step :: rest => .handlerRun step.handler idx :: chainEvents (idx + 1) rest

/-! ## Auxiliary definitions for concrete scenarios -/

/-- Whether `hay` starts with `needle` (character lists). -/
def startsWithChunk : List Char → List Char → Bool
  | _, [] => true
  | [], _ :: _ => false
  | a :: hay, b :: needle => a = b && startsWithChunk hay needle

/-- Whether `needle` occurs contiguously inside `hay` (character lists),
used to check that one string mentions another. -/
def containsChunk : List Char → List Char → Bool
  | [], needle => needle.isEmpty
  | a :: hay, needle => startsWithChunk (a :: hay) needle || containsChunk hay needle

/-- A handler that completes normally without touching the response. -/
def idHandler : Handler := fun r => (r, none)

/-- A handler that writes one stdout chunk and completes normally. -/
def writeHandler (tag : String) : Handler := fun r => (r.logStdout tag, none)

/-- A handler that throws the given value. -/
def throwValHandler (v : JSVal) : Handler := fun r => (r, some v)

/-- An environment where validation, preparation and handler loading all
succeed and handlers do nothing. -/
def envOkBase : Env :=
  { validator := .ok true, prepareResult := .ok ()
    loadHandler := fun _ => .ok idHandler }

/-- An environment for a chain where the handler at path "boom" throws the
string "bang" and every other handler echoes its path to stdout. -/
def envChainThrow : Env :=
  { validator := .ok true, prepareResult := .ok ()
    loadHandler := fun p =>
      if p = "boom" then .ok (throwValHandler (.str "bang")) else .ok (writeHandler p) }

/-- An environment for a chain where every handler echoes its path. -/
def envChainOk : Env :=
  { validator := .ok true, prepareResult := .ok ()
    loadHandler := fun p => .ok (writeHandler p) }

/-- Arguments with one positional segment. -/
def argsSimple : CmdArguments := { positional := ["greet"], jsonFlag := false }

/-- Default invoke parameters carrying `argsSimple`. -/
def parmsSimple : Option IInvokeCommandParms := some { arguments := some argsSimple }

/-- A single-handler command definition. -/
def defnSingle : ICommandDefinition := { name := "greet", handler := some "h", chainedHandlers := none }

/-- A command definition with neither handler nor chained handlers. -/
def defnNoHandler : ICommandDefinition := { name := "greet", handler := none, chainedHandlers := none }

/-- A list-of-pairs credential store: save prepends, load finds by account. -/
def listBackend : CredBackend (List (String × String)) :=
  { saveCredentials := fun st a enc => (a, enc) :: st
    loadCredentials := fun st a => (st.find? (fun p => p.1 == a)).map (·.2) }

theorem chainLoop_append (definitionName : String) (env : Env) (args : CmdArguments)
    (response : CommandResponse) :
    ∀ pre : List ChainedStep, (∀ s ∈ pre, StepSucceeds env s) →
    ∀ (tail : List ChainedStep) (idx : Nat) (bufOut bufErr : List String)
      (last : Option CommandResponse),
      chainLoop definitionName env args response (pre ++ tail) idx bufOut bufErr last =
        ((chainLoop definitionName env args response tail (idx + pre.length)
            (chainBuffers env args bufOut bufErr pre).1
            (chainBuffers env args bufOut bufErr pre).2
            (chainLast env args last bufOut bufErr pre)).1,
          chainEvents idx pre ++
            (chainLoop definitionName env args response tail (idx + pre.length)
              (chainBuffers env args bufOut bufErr pre).1
              (chainBuffers env args bufOut bufErr pre).2
              (chainLast env args last bufOut bufErr pre)).2) := by
  intro pre
  induction pre with
  | nil =>
    intro _ tail idx bufOut bufErr last
    simp [chainBuffers, chainLast, chainEvents]
  | cons step rest ih =>
    intro hpre tail idx bufOut bufErr last
    obtain ⟨h, hload, hok⟩ := hpre step (by simp)
    have hrest : ∀ s ∈ rest, StepSucceeds env s := fun s hs => hpre s (by simp [hs])
    rw [List.cons_append, chainLoop]
    cases hc : h (mkStepResponse args step bufOut bufErr) with
    | mk r1 th =>
      have hth : th = none := by
        have := hok (mkStepResponse args step bufOut bufErr)
        rw [hc] at this
        exact this
      subst hth
      simp only [attemptHandlerLoad, hload, hc, CommandResponse.buildJsonResponse]
      rw [ih hrest tail (idx + 1) r1.stdout r1.stderr (some r1)]
      have hidx : idx + 1 + rest.length = idx + (step :: rest).length := by
        simp
        omega
      rw [hidx]
      simp only [chainBuffers, chainLast, chainEvents, hload, hc, List.cons_append]

/-! ## Round-trip lemmas for the credential encoding -/

theorem sextetOfChar_sextetChar : ∀ i < 64, sextetOfChar (sextetChar i) = some i := by decide

theorem sextetChar_ne_pad : ∀ i < 64, sextetChar i ≠ '=' := by decide

theorem b64encodeChars_shape (bs : List Nat) (h : bs ≠ []) :
    ∃ y0 y1 y2 y3 t, b64encodeChars bs = y0 :: y1 :: y2 :: y3 :: t := by
  match bs with
  | [] => exact absurd rfl h
  | [a] => exact ⟨_, _, _, _, _, rfl⟩
  | [a, b] => exact ⟨_, _, _, _, _, rfl⟩
  | a :: b :: c :: rest => exact ⟨_, _, _, _, _, rfl⟩

theorem b64decodeChars_pad2 (s0 s1 : Nat) (h0 : s0 < 64) (h1 : s1 < 64) :
    b64decodeChars [sextetChar s0, sextetChar s1, '=', '='] = some [s0 * 4 + s1 / 16] := by
  simp [b64decodeChars, sextetOfChar_sextetChar _ h0, sextetOfChar_sextetChar _ h1]

theorem b64decodeChars_pad1 (s0 s1 s2 : Nat) (h0 : s0 < 64) (h1 : s1 < 64) (h2 : s2 < 64) :
    b64decodeChars [sextetChar s0, sextetChar s1, sextetChar s2, '='] =
      some [s0 * 4 + s1 / 16, s1 % 16 * 16 + s2 / 4] := by
  simp [b64decodeChars, sextetOfChar_sextetChar _ h0, sextetOfChar_sextetChar _ h1,
    sextetOfChar_sextetChar _ h2, sextetChar_ne_pad _ h2]

theorem b64decodeChars_quad_nil (s0 s1 s2 s3 : Nat)
    (h0 : s0 < 64) (h1 : s1 < 64) (h2 : s2 < 64) (h3 : s3 < 64) :
    b64decodeChars [sextetChar s0, sextetChar s1, sextetChar s2, sextetChar s3] =
      some (b64decodeQuad s0 s1 s2 s3 []) := by
  simp [b64decodeChars, sextetOfChar_sextetChar _ h0, sextetOfChar_sextetChar _ h1,
    sextetOfChar_sextetChar _ h2, sextetOfChar_sextetChar _ h3,
    sextetChar_ne_pad _ h2, sextetChar_ne_pad _ h3]

theorem b64decodeChars_quad_cons (s0 s1 s2 s3 : Nat)
    (h0 : s0 < 64) (h1 : s1 < 64) (h2 : s2 < 64) (h3 : s3 < 64)
    (y0 y1 y2 y3 : Char) (t : List Char) :
    b64decodeChars (sextetChar s0 :: sextetChar s1 :: sextetChar s2 :: sextetChar s3 ::
        y0 :: y1 :: y2 :: y3 :: t) =
      (b64decodeChars (y0 :: y1 :: y2 :: y3 :: t)).map (b64decodeQuad s0 s1 s2 s3) := by
  simp [b64decodeChars, sextetOfChar_sextetChar _ h0, sextetOfChar_sextetChar _ h1,
    sextetOfChar_sextetChar _ h2, sextetOfChar_sextetChar _ h3]

theorem b64_roundtrip : ∀ bs : List Nat, (∀ x ∈ bs, x < 256) →
    b64decodeChars (b64encodeChars bs) = some bs := by
  intro bs
  induction bs using b64encodeChars.induct with
  | case1 =>
    intro
    rfl
  | case2 a =>
    intro h
    have ha : a < 256 := h a (by simp)
    rw [b64encodeChars, b64decodeChars_pad2 _ _ (by omega) (by omega)]
    have : a / 4 * 4 + a % 4 * 16 / 16 = a := by omega
    rw [this]
  | case3 a b =>
    intro h
    have ha : a < 256 := h a (by simp)
    have hb : b < 256 := h b (by simp)
    rw [b64encodeChars, b64decodeChars_pad1 _ _ _ (by omega) (by omega) (by omega)]
    have e1 : a / 4 * 4 + (a % 4 * 16 + b / 16) / 16 = a := by omega
    have e2 : (a % 4 * 16 + b / 16) % 16 * 16 + b % 16 * 4 / 4 = b := by omega
    rw [e1, e2]
  | case4 a b c rest ih =>
    intro h
    have ha : a < 256 := h a (by simp)
    have hb : b < 256 := h b (by simp)
    have hc : c < 256 := h c (by simp)
    have ihr := ih (fun x hx => h x (by simp [hx]))
    have e1 : a / 4 * 4 + (a % 4 * 16 + b / 16) / 16 = a := by omega
    have e2 : (a % 4 * 16 + b / 16) % 16 * 16 + (b % 16 * 4 + c / 64) / 4 = b := by omega
    have e3 : (b % 16 * 4 + c / 64) % 4 * 64 + c % 64 = c := by omega
    rcases Decidable.em (rest = []) with hre | hre
    · subst hre
      rw [b64encodeChars, b64encodeChars,
        b64decodeChars_quad_nil _ _ _ _ (by omega) (by omega) (by omega) (by omega)]
      simp [b64decodeQuad, e1, e2, e3]
    · obtain ⟨y0, y1, y2, y3, t, hy⟩ := b64encodeChars_shape rest hre
      rw [b64encodeChars, hy,
        b64decodeChars_quad_cons _ _ _ _ (by omega) (by omega) (by omega) (by omega),
        ← hy, ihr]
      simp [b64decodeQuad, e1, e2, e3]

theorem utf8DecodeNats_byte1 (b : Nat) (hb : b < 128) (rest : List Nat) :
    utf8DecodeNats (b :: rest) = (utf8DecodeNats rest).map (b :: ·) := by
  rw [utf8DecodeNats, if_pos hb]

theorem utf8DecodeNats_byte2 (b b1 : Nat) (hb : 192 ≤ b ∧ b < 224)
    (hb1 : 128 ≤ b1 ∧ b1 < 192) (rest : List Nat) :
    utf8DecodeNats (b :: b1 :: rest) =
      (utf8DecodeNats rest).map (((b - 192) * 64 + (b1 - 128)) :: ·) := by
  rw [utf8DecodeNats]
  simp only [List.getD_cons_zero, List.getD_cons_succ, List.length_cons,
    List.drop_succ_cons, List.drop_zero]
  rw [if_neg (by omega), if_neg (by omega), if_pos (by omega), if_pos (by omega)]

theorem utf8DecodeNats_byte3 (b b1 b2 : Nat) (hb : 224 ≤ b ∧ b < 240)
    (hb1 : 128 ≤ b1 ∧ b1 < 192) (hb2 : 128 ≤ b2 ∧ b2 < 192) (rest : List Nat) :
    utf8DecodeNats (b :: b1 :: b2 :: rest) =
      (utf8DecodeNats rest).map
        (((b - 224) * 4096 + (b1 - 128) * 64 + (b2 - 128)) :: ·) := by
  rw [utf8DecodeNats]
  simp only [List.getD_cons_zero, List.getD_cons_succ, List.length_cons,
    List.drop_succ_cons, List.drop_zero]
  rw [if_neg (by omega), if_neg (by omega), if_neg (by omega), if_pos (by omega),
    if_pos (by omega)]

theorem utf8DecodeNats_byte4 (b b1 b2 b3 : Nat) (hb : 240 ≤ b)
    (hb1 : 128 ≤ b1 ∧ b1 < 192) (hb2 : 128 ≤ b2 ∧ b2 < 192)
    (hb3 : 128 ≤ b3 ∧ b3 < 192) (rest : List Nat) :
    utf8DecodeNats (b :: b1 :: b2 :: b3 :: rest) =
      (utf8DecodeNats rest).map
        (((b - 240) * 262144 + (b1 - 128) * 4096 + (b2 - 128) * 64 + (b3 - 128)) :: ·) := by
  rw [utf8DecodeNats]
  simp only [List.getD_cons_zero, List.getD_cons_succ, List.length_cons,
    List.drop_succ_cons, List.drop_zero]
  rw [if_neg (by omega), if_neg (by omega), if_neg (by omega), if_neg (by omega),
    if_pos (by omega)]

theorem utf8DecodeNats_encodeChar (n : Nat) (hn : n < 1114112) (rest : List Nat) :
    utf8DecodeNats (utf8EncodeChar n ++ rest) = (utf8DecodeNats rest).map (n :: ·) := by
  by_cases h1 : n < 128
  · rw [utf8EncodeChar, if_pos h1]
    simpa using utf8DecodeNats_byte1 n h1 rest
  · by_cases h2 : n < 2048
    · rw [utf8EncodeChar, if_neg h1, if_pos h2]
      have hv : (192 + n / 64 - 192) * 64 + (128 + n % 64 - 128) = n := by omega
      simp only [List.cons_append, List.nil_append,
        utf8DecodeNats_byte2 (192 + n / 64) (128 + n % 64) (by omega) (by omega) rest, hv]
    · by_cases h3 : n < 65536
      · rw [utf8EncodeChar, if_neg h1, if_neg h2, if_pos h3]
        have hv : (224 + n / 4096 - 224) * 4096 + (128 + n / 64 % 64 - 128) * 64 +
            (128 + n % 64 - 128) = n := by omega
        simp only [List.cons_append, List.nil_append,
          utf8DecodeNats_byte3 (224 + n / 4096) (128 + n / 64 % 64) (128 + n % 64)
            (by omega) (by omega) (by omega) rest, hv]
      · rw [utf8EncodeChar, if_neg h1, if_neg h2, if_neg h3]
        have hv : (240 + n / 262144 - 240) * 262144 + (128 + n / 4096 % 64 - 128) * 4096 +
            (128 + n / 64 % 64 - 128) * 64 + (128 + n % 64 - 128) = n := by omega
        simp only [List.cons_append, List.nil_append,
          utf8DecodeNats_byte4 (240 + n / 262144) (128 + n / 4096 % 64) (128 + n / 64 % 64)
            (128 + n % 64) (by omega) (by omega) (by omega) (by omega) rest, hv]

theorem utf8_roundtrip : ∀ l : List Nat, (∀ n ∈ l, n < 1114112) →
    utf8DecodeNats (utf8EncodeNats l) = some l := by
  intro l
  induction l with
  | nil =>
    intro _
    rw [utf8EncodeNats, utf8DecodeNats]
  | cons n r ih =>
    intro h
    rw [utf8EncodeNats, utf8DecodeNats_encodeChar n (h n (by simp)),
      ih (fun m hm => h m (by simp [hm]))]
    rfl

theorem utf8EncodeChar_lt_256 (n : Nat) (hn : n < 1114112) :
    ∀ x ∈ utf8EncodeChar n, x < 256 := by
  intro x hx
  unfold utf8EncodeChar at hx
  split_ifs at hx <;> simp at hx <;> omega

theorem utf8EncodeNats_lt_256 : ∀ l : List Nat, (∀ n ∈ l, n < 1114112) →
    ∀ x ∈ utf8EncodeNats l, x < 256 := by
  intro l
  induction l with
  | nil =>
    intro _ x hx
    simp [utf8EncodeNats] at hx
  | cons n r ih =>
    intro h x hx
    rw [utf8EncodeNats] at hx
    rcases List.mem_append.mp hx with hx | hx
    · exact utf8EncodeChar_lt_256 n (h n (by simp)) x hx
    · exact ih (fun m hm => h m (by simp [hm])) x hx

theorem char_toNat_lt (c : Char) : c.toNat < 1114112 := by
  have h := c.valid
  simp only [UInt32.isValidChar, Nat.isValidChar] at h
  rcases h with h | h
  · have : c.toNat = c.val.toNat := rfl
    omega
  · have : c.toNat = c.val.toNat := rfl
    omega

theorem base64Decode_base64Encode (s : String) : base64Decode (base64Encode s) = some s := by
  have hcp : ∀ n ∈ s.data.map Char.toNat, n < 1114112 := by
    intro n hn
    obtain ⟨c, _, rfl⟩ := List.mem_map.mp hn
    exact char_toNat_lt c
  unfold base64Encode base64Decode
  rw [show (String.mk (b64encodeChars (utf8EncodeNats (s.data.map Char.toNat)))).data =
      b64encodeChars (utf8EncodeNats (s.data.map Char.toNat)) from rfl,
    b64_roundtrip _ (utf8EncodeNats_lt_256 _ hcp)]
  simp only [Option.some_bind]
  rw [utf8_roundtrip _ hcp]
  have hid : Char.ofNat ∘ Char.toNat = id := funext fun c => Char.ofNat_toNat c
  simp only [Option.map_some', List.map_map, hid, List.map_id]

/-! ## Claim theorems -/

/-- C1 (amended): the outcome of `handleHandlerError` is uniquely determined
by the thrown value's shape — an `ImperativeError` attaches its own
details, a generic `Error` attaches its message and stack, a string
attaches the string as message, null/undefined attach "Command Failed" —
but for any other value (such as the number 42) the response is marked
failed and its data object is set to the value, while no error record is
attached at all (the error field is left unchanged; in particular no
`HandlerUnhandled` record with the JSON-stringified value). -/
theorem handleHandlerError_error_mapping (v : JSVal) (r : CommandResponse) (p : String) :
    (handleHandlerError v r p).success = false ∧
    (handleHandlerError v r p).error =
      (match v with
       | .impErr d => some d
       | .errObj m st => some { msg := m, stack := st }
       | .str s => some { msg := s }
       | .jsNull => some { msg := "Command Failed" }
       | .jsUndefined => some { msg := "Command Failed" }
       | _ => r.error) ∧
    (handleHandlerError v r p).dataObj =
      (match v with
       | .num _ => some v
       | .bool _ => some v
       | _ => r.dataObj) := by
  cases v with
  | impErr d =>
    cases had : d.additionalDetails <;>
      simp [handleHandlerError, had, CommandResponse.failed, CommandResponse.setError,
        CommandResponse.setMessage, CommandResponse.errorHeader, CommandResponse.errStderr]
  | errObj m st =>
    by_cases hm : m = "" <;> cases st <;>
      simp [handleHandlerError, hm, CommandResponse.failed, CommandResponse.setError,
        CommandResponse.setMessage, CommandResponse.errorHeader, CommandResponse.errStderr]
  | str s =>
    simp [handleHandlerError, CommandResponse.failed, CommandResponse.setError,
      CommandResponse.setMessage, CommandResponse.errorHeader, CommandResponse.errStderr]
  | jsNull =>
    simp [handleHandlerError, CommandResponse.failed, CommandResponse.setError,
      CommandResponse.setMessage]
  | jsUndefined =>
    simp [handleHandlerError, CommandResponse.failed, CommandResponse.setError,
      CommandResponse.setMessage]
  | num n =>
    simp [handleHandlerError, CommandResponse.failed, CommandResponse.setObj,
      CommandResponse.errorHeader, CommandResponse.errStderr]
  | bool b =>
    simp [handleHandlerError, CommandResponse.failed, CommandResponse.setObj,
      CommandResponse.errorHeader, CommandResponse.errStderr]

/-- C1 counterexample: a handler that throws the value 42 during `invoke`
yields a failed snapshot whose error field is `none` — there is no
`HandlerUnhandled` record and no `additionalDetails` "42"; the thrown
value instead lands in the snapshot's data object. -/
theorem invoke_throw42_no_error_record :
    ((invoke defnSingle "root"
        { validator := .ok true, prepareResult := .ok ()
          loadHandler := fun _ => .ok (throwValHandler (.num 42)) } parmsSimple).1.map
      (fun os => os.map (fun s => (s.error, s.data)))) =
      .ok (some (none, some (.num 42))) := by
  decide

/-- C2 (amended): every `invoke` pre-check violation (null params, null
arguments, response format outside the allowed set, command node with
neither handler nor chained handlers) makes `invoke` reject with a thrown
`ImperativeExpect` error; no Response — failed, Internal-kind or
otherwise — is returned to the caller. -/
theorem invoke_precheck_rejects (defn : ICommandDefinition) (root : String) (env : Env) :
    (invoke defn root env none =
      (.error (.expectError (errorTag ++ " invoke(): No parameters supplied.")), [])) ∧
    (∀ p : IInvokeCommandParms, p.arguments = none →
      invoke defn root env (some p) =
        (.error (.expectError (errorTag ++ " invoke(): No command arguments supplied.")), [])) ∧
    (∀ (p : IInvokeCommandParms) (args : CmdArguments) (fmt : String),
      p.arguments = some args → p.responseFormat = some fmt →
      fmt ≠ "default" → fmt ≠ "json" →
      invoke defn root env (some p) =
        (.error (.expectError (errorTag ++
          " invoke(): Response format must be one of the following: default,json")), [])) ∧
    (∀ (p : IInvokeCommandParms) (args : CmdArguments),
      defn.handler = none → defn.chainedHandlers = none →
      p.arguments = some args → p.responseFormat = none →
      invoke defn root env (some p) =
        (.error (.expectError (errorTag ++ " invoke(): Cannot invoke the command \"" ++
          defn.name ++ "\". It has no handler and no chained handlers.")), [])) := by
  refine ⟨rfl, ?_, ?_, ?_⟩
  · intro p hp
    simp [invoke, hp]
  · intro p args fmt hp hf h1 h2
    simp [invoke, hp, hf, h1, h2]
  · intro p args hh hc hp hf
    simp [invoke, hp, hf, hh, hc]

/-- C2 witness: the four violation classes at concrete inputs. -/
theorem invoke_precheck_rejects_witness :
    (invoke defnNoHandler "root" envOkBase none =
      (.error (.expectError "Command Processor Error: invoke(): No parameters supplied."), [])) ∧
    (invoke defnNoHandler "root" envOkBase (some { arguments := none }) =
      (.error (.expectError "Command Processor Error: invoke(): No command arguments supplied."), [])) ∧
    (invoke defnNoHandler "root" envOkBase
        (some { arguments := some argsSimple, responseFormat := some "xml" }) =
      (.error (.expectError
        "Command Processor Error: invoke(): Response format must be one of the following: default,json"), [])) ∧
    (invoke defnNoHandler "root" envOkBase (some { arguments := some argsSimple }) =
      (.error (.expectError ("Command Processor Error: invoke(): Cannot invoke the command " ++
        "\"greet\". It has no handler and no chained handlers.")), [])) := by
  have h := invoke_precheck_rejects defnNoHandler "root" envOkBase
  exact ⟨h.1, h.2.1 { arguments := none } rfl,
    h.2.2.1 { arguments := some argsSimple, responseFormat := some "xml" } argsSimple "xml"
      rfl rfl (by decide) (by decide),
    h.2.2.2 { arguments := some argsSimple } argsSimple rfl rfl rfl rfl⟩

/-- C2 counterexample: with null invoke parameters, `invoke` rejects with the
thrown Expect error instead of returning a failed Internal-kind
Response. -/
theorem invoke_null_params_rejects :
    invoke defnSingle "root" envOkBase none =
      (.error (.expectError "Command Processor Error: invoke(): No parameters supplied."), []) := by
  rfl

/-- C8: `AbstractCredentialManager.save` throws `ImperativeError`
"Missing Secure Field" exactly when the secure value is null/undefined or
the empty string — leaving the backing store untouched — and for every
other string stores the base64 encoding without error. -/
theorem credentialManager_save_missing_secure_field {σ : Type} (b : CredBackend σ) (st : σ)
    (account : String) (secureValue : Option String) :
    (AbstractCredentialManager.save b st account secureValue =
        (some { msg := "Missing Secure Field" }, st) ↔
      secureValue = none ∨ secureValue = some "") ∧
    (∀ v, secureValue = some v → v ≠ "" →
      AbstractCredentialManager.save b st account secureValue =
        (none, b.saveCredentials st account (base64Encode v))) := by
  cases secureValue with
  | none => simp [AbstractCredentialManager.save]
  | some v =>
    by_cases hv : v = "" <;> simp [AbstractCredentialManager.save, hv]

/-- C8 witness: the empty secret is rejected with the store untouched; a
non-empty secret is stored (encoded) without error. -/
theorem credentialManager_save_missing_secure_field_witness :
    (AbstractCredentialManager.save listBackend [] "acct" (some "") =
      (some { msg := "Missing Secure Field" }, [])) ∧
    AbstractCredentialManager.save listBackend [] "acct" (some "topsecret") =
      (none, [("acct", base64Encode "topsecret")]) := by
  refine ⟨?_, ?_⟩
  · exact ((credentialManager_save_missing_secure_field listBackend [] "acct" (some "")).1).mpr
      (Or.inr rfl)
  · exact (credentialManager_save_missing_secure_field listBackend [] "acct"
      (some "topsecret")).2 "topsecret" rfl (by decide)

/-- C9: with the default base64 wrapping, for a backing store in which
`loadCredentials` returns exactly what `saveCredentials` stored for the
same account, `load` after `save` returns the original non-empty secret:
the base64 encode/decode pair composes to the identity. -/
theorem credentialManager_load_after_save {σ : Type} (b : CredBackend σ) (st : σ)
    (account : String) (secret : String) (hs : secret ≠ "")
    (hstore : ∀ enc, b.loadCredentials (b.saveCredentials st account enc) account = some enc) :
    AbstractCredentialManager.load b
      (AbstractCredentialManager.save b st account (some secret)).2 account = some secret := by
  simp only [AbstractCredentialManager.save, if_pos hs]
  unfold AbstractCredentialManager.load
  rw [hstore (base64Encode secret)]
  simp only [Option.some_bind]
  exact base64Decode_base64Encode secret

/-- C9 witness: saving then loading "user:pass" under the list-backed store
returns "user:pass". -/
theorem credentialManager_load_after_save_witness :
    AbstractCredentialManager.load listBackend
      (AbstractCredentialManager.save listBackend [] "acct" (some "user:pass")).2 "acct" =
      some "user:pass" := by
  refine credentialManager_load_after_save listBackend [] "acct" "user:pass" (by decide) ?_
  intro enc
  rfl

/-- C3: for a chained-handler command whose first `i` steps load and run
without throwing, if the step at index `i` throws then `invoke` stops the
chain — the event trace ends with step `i`, so no later handler runs —
and returns the finalized Response of step `i`, whose response was seeded
with the cumulative stdout/stderr of steps `0..i-1` (`chainBuffers`);
when every step succeeds, the returned snapshot is the finalized Response
of the last step. -/
theorem invoke_chained_stop_on_failure
    (name rootCommand : String) (env : Env) (args : CmdArguments)
    (pre rest : List ChainedStep) (step : ChainedStep) (hf : Handler)
    (hvld : env.validator = .ok true) (hprep : env.prepareResult = .ok ())
    (hpre : ∀ s ∈ pre, StepSucceeds env s)
    (hload : env.loadHandler step.handler = .ok hf) :
    ((∀ r, ((hf r).2).isSome) →
      invoke ⟨name, none, some (pre ++ step :: rest)⟩ rootCommand env
          (some { arguments := some args }) =
        (finishResponse (handleHandlerError
            (((hf (mkStepResponse args step (chainBuffers env args [] [] pre).1
                (chainBuffers env args [] [] pre).2)).2).getD .jsUndefined)
            ((hf (mkStepResponse args step (chainBuffers env args [] [] pre).1
                (chainBuffers env args [] [] pre).2)).1) step.handler),
          .prepareCalled :: (chainEvents 0 pre ++ [.handlerRun step.handler pre.length]))) ∧
    (rest = [] → (∀ r, (hf r).2 = none) →
      invoke ⟨name, none, some (pre ++ step :: rest)⟩ rootCommand env
          (some { arguments := some args }) =
        (finishResponse ((hf (mkStepResponse args step (chainBuffers env args [] [] pre).1
            (chainBuffers env args [] [] pre).2)).1),
          .prepareCalled :: (chainEvents 0 pre ++ [.handlerRun step.handler pre.length]))) := by
  have hbase : invoke ⟨name, none, some (pre ++ step :: rest)⟩ rootCommand env
      (some { arguments := some args }) =
      ((chainLoop name env args ((constructResponseObject none "default").succeeded)
          (pre ++ step :: rest) 0 [] [] none).1,
        .prepareCalled :: (chainLoop name env args ((constructResponseObject none "default").succeeded)
          (pre ++ step :: rest) 0 [] [] none).2) := by
    simp [invoke, invokeMain, hvld, hprep]
  rw [chainLoop_append name env args ((constructResponseObject none "default").succeeded)
    pre hpre (step :: rest) 0 [] [] none] at hbase
  constructor
  · intro hthrow
    cases hc : hf (mkStepResponse args step (chainBuffers env args [] [] pre).1
        (chainBuffers env args [] [] pre).2) with
    | mk r1 th =>
      have hsome := hthrow (mkStepResponse args step (chainBuffers env args [] [] pre).1
        (chainBuffers env args [] [] pre).2)
      rw [hc] at hsome
      cases th with
      | none => simp at hsome
      | some v =>
        rw [hbase]
        simp [chainLoop, attemptHandlerLoad, hload, hc, chainEvents, Nat.zero_add]
  · intro hrest hok
    subst hrest
    cases hc : hf (mkStepResponse args step (chainBuffers env args [] [] pre).1
        (chainBuffers env args [] [] pre).2) with
    | mk r1 th =>
      have hn := hok (mkStepResponse args step (chainBuffers env args [] [] pre).1
        (chainBuffers env args [] [] pre).2)
      rw [hc] at hn
      subst hn
      rw [hbase]
      simp [chainLoop, attemptHandlerLoad, hload, hc, chainEvents, Nat.zero_add]

/-- C3 witness: in the chain a-boom-c, boom throws, c never runs and the
failed snapshot carries the cumulative stdout of the prior step; in the
chain a-b both steps run and the final snapshot's stdout is their
cumulative output in order. -/
theorem invoke_chained_stop_on_failure_witness :
    ((invoke ⟨"cmd", none, some [⟨"a", false⟩, ⟨"boom", false⟩, ⟨"c", false⟩]⟩ "root"
        envChainThrow (some { arguments := some argsSimple })).2 =
      [.prepareCalled, .handlerRun "a" 0, .handlerRun "boom" 1]) ∧
    ((invoke ⟨"cmd", none, some [⟨"a", false⟩, ⟨"boom", false⟩, ⟨"c", false⟩]⟩ "root"
        envChainThrow (some { arguments := some argsSimple })).1.map
      (fun os => os.map (fun s => (s.success, s.stdout))) = .ok (some (false, ["a"]))) ∧
    ((invoke ⟨"cmd", none, some [⟨"a", false⟩, ⟨"b", false⟩]⟩ "root" envChainOk
        (some { arguments := some argsSimple })).1.map
      (fun os => os.map (fun s => s.stdout)) = .ok (some ["a", "b"])) := by
  have hpre1 : ∀ s ∈ [ChainedStep.mk "a" false], StepSucceeds envChainThrow s := by
    intro s hs
    simp at hs
    subst hs
    exact ⟨writeHandler "a", rfl, fun r => rfl⟩
  have hpre2 : ∀ s ∈ [ChainedStep.mk "a" false], StepSucceeds envChainOk s := by
    intro s hs
    simp at hs
    subst hs
    exact ⟨writeHandler "a", rfl, fun r => rfl⟩
  have h1 := (invoke_chained_stop_on_failure "cmd" "root" envChainThrow argsSimple
    [⟨"a", false⟩] [⟨"c", false⟩] ⟨"boom", false⟩ (throwValHandler (.str "bang"))
    rfl rfl hpre1 rfl).1 (fun r => rfl)
  have h2 := (invoke_chained_stop_on_failure "cmd" "root" envChainOk argsSimple
    [⟨"a", false⟩] [] ⟨"b", false⟩ (writeHandler "b")
    rfl rfl hpre2 rfl).2 rfl (fun r => rfl)
  simp only [List.cons_append, List.nil_append] at h1 h2
  refine ⟨?_, ?_, ?_⟩
  · rw [h1]
    decide
  · rw [h1]
    decide
  · rw [h2]
    decide

/-- C10: for a command node whose `chainedHandlers` is a non-null empty
list, once validation and preparation succeed, the empty step loop leaves
`chainedResponse` undefined and `finishResponse` is applied to it, so
`invoke` rejects with a runtime `TypeError` instead of returning a
finalized Response snapshot. -/
theorem invoke_empty_chain_rejects (name root : String) (env : Env) (args : CmdArguments)
    (hvld : env.validator = .ok true) (hprep : env.prepareResult = .ok ()) :
    (invoke ⟨name, none, some []⟩ root env (some { arguments := some args })).1 =
      .error (.typeError "Cannot read buildJsonResponse of undefined") := by
  simp [invoke, invokeMain, hvld, hprep, chainLoop]

/-- C4 (amended): when preparation fails with an `ImperativeError` carrying a
non-empty message, `invoke` returns a finalized failed Response whose
message and error `msg` equal the original error's message and whose
`additionalDetails` equals the original error's `additionalDetails` when
present; but when the thrown value carries no `details` record at all (a
generic `Error`, a string, ...), the access
`prepareErr.details.additionalDetails` raises a `TypeError` and `invoke`
rejects instead of returning a Response. -/
theorem invoke_prepare_failure (name hpath root : String) (env : Env) (args : CmdArguments)
    (pe : JSVal) (hh : jsTrim hpath ≠ "")
    (hvld : env.validator = .ok true) (hprep : env.prepareResult = .error pe) :
    (∀ d : IImperativeError, pe = .impErr d → d.msg ≠ "" →
      invoke ⟨name, some hpath, none⟩ root env (some { arguments := some args }) =
        (.ok (some
          { success := false, exitCode := 1, message := d.msg, data := none,
            stdout := [],
            stderr := ["Command Preparation Failed", d.msg] ++
              (match d.additionalDetails with
               | some det => ["Error Details", det]
               | none => []),
            error := some { msg := d.msg, additionalDetails := d.additionalDetails } }),
          [.prepareCalled])) ∧
    (jsDetails pe = none →
      invoke ⟨name, some hpath, none⟩ root env (some { arguments := some args }) =
        (.error (.typeError "Cannot read additionalDetails of undefined"), [.prepareCalled])) := by
  constructor
  · intro d hpe hmsg
    subst hpe
    cases hd : d.additionalDetails <;>
      simp [invoke, invokeMain, hvld, hprep, hh, hmsg, jsMessage, jsDetails, hd,
        constructResponseObject, freshResponse, finishResponse,
        CommandResponse.succeeded, CommandResponse.failed, CommandResponse.setMessage,
        CommandResponse.setError, CommandResponse.errorHeader, CommandResponse.errStderr,
        CommandResponse.buildJsonResponse]
  · intro hnd
    simp [invoke, invokeMain, hvld, hprep, hh, hnd, constructResponseObject, freshResponse,
      CommandResponse.succeeded, CommandResponse.failed, CommandResponse.setMessage,
      CommandResponse.errorHeader, CommandResponse.errStderr]

/-- C4 witness: an `ImperativeError` preparation failure carries message and
details through; a plain `Error` preparation failure makes invoke
reject. -/
theorem invoke_prepare_failure_witness :
    (invoke ⟨"greet", some "h", none⟩ "root"
        { envOkBase with prepareResult := Except.error (.impErr { msg := "prep failed", additionalDetails := some "inner detail" }) }
        (some { arguments := some argsSimple }) =
      (.ok (some
        { success := false, exitCode := 1, message := "prep failed", data := none,
          stdout := [],
          stderr := ["Command Preparation Failed", "prep failed", "Error Details", "inner detail"],
          error := some { msg := "prep failed", additionalDetails := some "inner detail" } }),
        [.prepareCalled])) ∧
    (invoke ⟨"greet", some "h", none⟩ "root"
        { envOkBase with prepareResult := .error (.errObj "boom" none) }
        (some { arguments := some argsSimple }) =
      (.error (.typeError "Cannot read additionalDetails of undefined"), [.prepareCalled])) := by
  constructor
  · have h := (invoke_prepare_failure "greet" "h" "root"
        { envOkBase with prepareResult := Except.error (.impErr { msg := "prep failed", additionalDetails := some "inner detail" }) }
        argsSimple (.impErr { msg := "prep failed", additionalDetails := some "inner detail" })
        (by decide) rfl rfl).1
        { msg := "prep failed", additionalDetails := some "inner detail" } rfl (by decide)
    rw [h]
    decide
  · exact (invoke_prepare_failure "greet" "h" "root"
      { envOkBase with prepareResult := .error (.errObj "boom" none) }
      argsSimple (.errObj "boom" none) (by decide) rfl rfl).2 rfl

/-- C4 counterexample: preparation throwing a plain `Error` (no `details`
record) makes `invoke` reject with a `TypeError` instead of returning the
finalized failed Response the claim promises for every thrown value. -/
theorem invoke_prepare_error_plain_rejects :
    (invoke defnSingle "root" { envOkBase with prepareResult := .error (.errObj "boom" none) }
        parmsSimple).1 = .error (.typeError "Cannot read additionalDetails of undefined") := by
  decide

/-- C5 (amended): on syntax validation returning valid=false, `invoke` marks
the Response failed, sets its message to "Command syntax invalid", writes
the use-help hint to the console and returns the finalized Response
without preparing profiles or running any handler (the event trace is
empty); the hint names the root command followed by the positional path
when the positional path is non-empty, and falls back to the command
node's own name (without the root command) when it is empty. -/
theorem invoke_syntax_invalid (name hpath root : String) (env : Env) (args : CmdArguments)
    (hh : jsTrim hpath ≠ "") (hvld : env.validator = .ok false) :
    invoke ⟨name, some hpath, none⟩ root env (some { arguments := some args }) =
      (.ok (some
        { success := false, exitCode := 1, message := "Command syntax invalid",
          data := none, stdout := [],
          stderr := [if args.positional.length > 0 then
              "\nUse \"" ++ root ++ " " ++ " ".intercalate args.positional ++
                " --help\" to view command description, usage, and options."
            else "\nUse \"" ++ name ++ " --help\" to view command description, usage, and options."],
          error := none }), []) := by
  by_cases hl : args.positional.length > 0 <;>
    simp [invoke, invokeMain, hvld, hh, hl, constructResponseObject, freshResponse,
      finishResponse, CommandResponse.succeeded, CommandResponse.failed,
      CommandResponse.setMessage, CommandResponse.errStderr, CommandResponse.buildJsonResponse]

/-- C5 witness: a missing required option on `greet` produces the failed
snapshot with the root-command hint and no prepare or handler event. -/
theorem invoke_syntax_invalid_witness :
    invoke ⟨"greet", some "h", none⟩ "myCliRoot" { envOkBase with validator := .ok false }
        (some { arguments := some argsSimple }) =
      (.ok (some
        { success := false, exitCode := 1, message := "Command syntax invalid",
          data := none, stdout := [],
          stderr := ["\nUse \"myCliRoot greet --help\" to view command description, usage, and options."],
          error := none }), []) := by
  have h := invoke_syntax_invalid "greet" "h" "myCliRoot"
    { envOkBase with validator := .ok false } argsSimple (by decide) rfl
  rw [h]
  decide

/-- C5 counterexample: with an empty positional path the emitted hint is
built from the command node's name and does not mention the root command
at all, so it is not of the claimed form
`Use "<root command> <positional path> --help"`. -/
theorem invoke_syntax_invalid_empty_path_hint :
    ((invoke defnSingle "myCliRoot" { envOkBase with validator := .ok false }
        (some { arguments := some { positional := [], jsonFlag := false } })).1.map
      (fun os => os.map (fun s => s.stderr))) =
      .ok (some ["\nUse \"greet --help\" to view command description, usage, and options."]) ∧
    containsChunk ("\nUse \"greet --help\" to view command description, usage, and options.").data
      "myCliRoot".data = false := by
  exact ⟨by decide, by decide⟩

/-- C6 (amended): when loading or instantiating the referenced handler
fails, `invoke` returns a finalized failed Response whose stderr carries
the header "Handler Instantiation Failed", whose error `msg` is the
instantiation-failure message — which includes the handler path — and
whose `additionalDetails` is the underlying load error's message (not
necessarily containing the path). -/
theorem invoke_handler_load_failure (name hpath root lerr : String) (env : Env)
    (args : CmdArguments) (hh : jsTrim hpath ≠ "")
    (hvld : env.validator = .ok true) (hprep : env.prepareResult = .ok ())
    (hload : env.loadHandler hpath = .error lerr) :
    (invoke ⟨name, some hpath, none⟩ root env (some { arguments := some args }) =
      (.ok (some
        { success := false, exitCode := 1,
          message := couldNotInstatiateCommandHandlerMsg hpath name,
          data := none, stdout := [],
          stderr := ["Handler Instantiation Failed", couldNotInstatiateCommandHandlerMsg hpath name,
            "Error Details", lerr],
          error := some
            { msg := couldNotInstatiateCommandHandlerMsg hpath name,
              additionalDetails := some lerr } }), [.prepareCalled])) ∧
    (∃ l r, (couldNotInstatiateCommandHandlerMsg hpath name).data =
      l ++ hpath.data ++ r) := by
  constructor
  · simp [invoke, invokeMain, attemptHandlerLoad, hload, hh, hvld, hprep, nodePathNormalize,
      constructResponseObject, freshResponse, finishResponse,
      CommandResponse.succeeded, CommandResponse.failed, CommandResponse.setMessage,
      CommandResponse.setError, CommandResponse.errorHeader, CommandResponse.errStderr,
      CommandResponse.buildJsonResponse]
  · refine ⟨"Could not instantiate the handler ".data, (" for command " ++ name).data, ?_⟩
    simp [couldNotInstatiateCommandHandlerMsg, String.data_append, List.append_assoc]

/-- C6 witness: a failing handler load at a concrete path. -/
theorem invoke_handler_load_failure_witness :
    invoke ⟨"greet", some "myHandler", none⟩ "root"
        { envOkBase with loadHandler := fun _ => .error "boom" }
        (some { arguments := some argsSimple }) =
      (.ok (some
        { success := false, exitCode := 1,
          message := "Could not instantiate the handler myHandler for command greet",
          data := none, stdout := [],
          stderr := ["Handler Instantiation Failed",
            "Could not instantiate the handler myHandler for command greet",
            "Error Details", "boom"],
          error := some
            { msg := "Could not instantiate the handler myHandler for command greet",
              additionalDetails := some "boom" } }), [.prepareCalled]) := by
  have h := (invoke_handler_load_failure "greet" "myHandler" "root" "boom"
    { envOkBase with loadHandler := fun _ => .error "boom" } argsSimple
    (by decide) rfl rfl rfl).1
  rw [h]
  decide

/-- C6 counterexample: with a load error whose message is "boom", the error
record's `additionalDetails` is "boom", which does not include the
handler path "myHandler" — the path lives in the error `msg` instead. -/
theorem invoke_handler_load_failure_details_no_path :
    ((invoke ⟨"greet", some "myHandler", none⟩ "root"
        { envOkBase with loadHandler := fun _ => .error "boom" }
        parmsSimple).1.map (fun os => os.map (fun s => s.error.map
          (fun e => e.additionalDetails)))) = .ok (some (some (some "boom"))) ∧
    containsChunk "boom".data "myHandler".data = false := by
  exact ⟨by decide, by decide⟩

/-- C7 (amended): when the syntax validator itself throws, `invoke` returns a
finalized failed Response whose error `msg` is exactly "Unexpected syntax
validation error" and whose `additionalDetails` records the underlying
exception's message; the error record's cause-errors field is not set. -/
theorem invoke_validator_throws (name hpath root : String) (env : Env) (args : CmdArguments)
    (e : JSVal) (hh : jsTrim hpath ≠ "") (hvld : env.validator = .error e) :
    invoke ⟨name, some hpath, none⟩ root env (some { arguments := some args }) =
      (.ok (some
        { success := false, exitCode := 1,
          message := "Unexpected syntax validation error: " ++ jsStr (jsMessage e),
          data := none, stdout := [],
          stderr := ["Unexpected syntax validation error", jsStr (jsMessage e)],
          error := some
            { msg := "Unexpected syntax validation error",
              additionalDetails := jsMessage e } }), []) := by
  simp [invoke, invokeMain, hvld, hh, constructResponseObject, freshResponse, finishResponse,
    CommandResponse.succeeded, CommandResponse.failed, CommandResponse.setMessage,
    CommandResponse.setError, CommandResponse.errorHeader, CommandResponse.errStderr,
    CommandResponse.buildJsonResponse]

/-- C7 witness: a validator exception with message "kaboom". -/
theorem invoke_validator_throws_witness :
    invoke ⟨"greet", some "h", none⟩ "root"
        { envOkBase with validator := .error (.errObj "kaboom" none) }
        (some { arguments := some argsSimple }) =
      (.ok (some
        { success := false, exitCode := 1,
          message := "Unexpected syntax validation error: kaboom",
          data := none, stdout := [],
          stderr := ["Unexpected syntax validation error", "kaboom"],
          error := some
            { msg := "Unexpected syntax validation error",
              additionalDetails := some "kaboom" } }), []) := by
  have h := invoke_validator_throws "greet" "h" "root"
    { envOkBase with validator := .error (.errObj "kaboom" none) } argsSimple
    (.errObj "kaboom" none) (by decide) rfl
  rw [h]
  decide

/-- C7 counterexample: the validator exception is recorded in
`additionalDetails`; the error record's cause-errors field stays `none`,
so no cause chain records the underlying exception. -/
theorem invoke_validator_throws_no_cause_chain :
    ((invoke defnSingle "root" { envOkBase with validator := .error (.errObj "kaboom" none) }
        parmsSimple).1.map (fun os => os.map (fun s =>
          s.error.map (fun e => (e.msg, e.additionalDetails, e.causeErrors))))) =
      .ok (some (some ("Unexpected syntax validation error", some "kaboom", none))) := by
  decide

/-- C10 witness: the empty-chain rejection at a concrete invocation. -/
theorem invoke_empty_chain_rejects_witness :
    (invoke ⟨"cmd", none, some []⟩ "root" envOkBase (some { arguments := some argsSimple })).1 =
      .error (.typeError "Cannot read buildJsonResponse of undefined") :=
  invoke_empty_chain_rejects "cmd" "root" envOkBase argsSimple rfl rfl

end Imperative
